import Mathlib

/-!
Shallow embedding of the core of the `windows-ai-agent` repository:
the tool runtime (`src/tools/server.py`), the core data types
(`src/core/types.py`), the response extractor
(`src/llm/client.py`, `OllamaClient._parse_tool_call`) and the turn loop
(`src/orchestrator/agent.py`, `AgentOrchestrator.process`).

Modelling conventions:
* Python dicts are association lists with Python-dict update semantics
  (assignment keeps the original insertion position of an existing key).
* JSON values (`json.loads` results and the `Any`-typed payloads flowing
  through the runtime) are the inductive `Json`; numeric literals are
  modelled as integers (no claim involves fractional numbers).
* Wall-clock measurement (`time.time()` deltas) is abstracted as an
  explicit `elapsedMs` argument; the timeout branch of `execute` does not
  measure the clock in the source (it writes `self._timeout * 1000`) and
  is modelled exactly so.
* A tool handler runs on a worker pool and is observed by `execute`
  through `future.result(timeout=...)`; its behaviour is modelled by
  `HandlerOutcome`: it returns a value, raises an exception, or fails to
  complete within the configured timeout.
-/

/-- JSON-like runtime values (`json.loads` output / `Any` payloads). -/
inductive Json where
  | null : Json
  | bool (b : Bool) : Json
  | num (n : Int) : Json
  | str (s : String) : Json
  | arr (items : List Json) : Json
  | obj (members : List (String × Json)) : Json
deriving Repr

/-- Python dict assignment `d[k] = v`: updates in place if the key is
present (keeping its insertion position), otherwise appends. -/
def dictInsert {α : Type} : List (String × α) → String → α → List (String × α)
  | [], k, v => [(k, v)]
  | (k', v') :: rest, k, v =>
    if k' = k then (k, v) :: rest else (k', v') :: dictInsert rest k v

/-- Python `key in d` for a dict. -/
def dictContains {α : Type} (d : List (String × α)) (k : String) : Bool :=
  (d.lookup k).isSome

/-- Python `d.get(k, dflt)`. -/
def dictGetD {α : Type} (d : List (String × α)) (k : String) (dflt : α) : α :=
  (d.lookup k).getD dflt

/-- `PermissionTier` (src/core/types.py).  A Python `Enum` whose values
are strings; the runtime compares the `.value` strings. -/
inductive PermissionTier where
  | observer
  | operator
  | administrator
  | system
deriving DecidableEq, Repr

/-- The `.value` string of each tier, exactly as in the source. -/
def PermissionTier.value : PermissionTier → String
  | .observer => "observer"
  | .operator => "operator"
  | .administrator => "administrator"
  | .system => "system"

/-- The privilege order declared by the spec and by the enum's own
doc comments: observer < operator < administrator < system.
(Used only to state claims about the intended ordering.) -/
def PermissionTier.rank : PermissionTier → Nat
  | .observer => 0
  | .operator => 1
  | .administrator => 2
  | .system => 3

/-- Python `a < b` on strings: lexicographic comparison by code point. -/
def pyStrLtChars : List Char → List Char → Bool
  | [], [] => false
  | [], _ :: _ => true
  | _ :: _, [] => false
  | a :: as, b :: bs =>
    if a.toNat < b.toNat then true
    else if b.toNat < a.toNat then false
    else pyStrLtChars as bs

/-- Python `a > b` on strings. -/
def pyStrGt (a b : String) : Bool := pyStrLtChars b.data a.data

/-- `RiskLevel` (src/core/types.py). -/
inductive RiskLevel where
  | low
  | medium
  | high
  | critical
deriving DecidableEq, Repr

/-- `ToolCategory` (src/core/types.py). -/
inductive ToolCategory where
  | file_system
  | application
  | input
  | ui_automation
  | system
  | clipboard
  | notification
  | data_extraction
  | scheduling
  | security
deriving DecidableEq, Repr

/-- `ExecutionStatus` (src/core/types.py). -/
inductive ExecutionStatus where
  | pending
  | running
  | success
  | failed
  | cancelled
  | timeout
  | permission_denied
  | confirmation_required
deriving DecidableEq, Repr

/-- `ToolParameter` (src/core/types.py).  `default` is `None`-able. -/
structure ToolParameter where
  name : String
  type : String
  description : String := ""
  required : Bool := true
  default : Option Json := none
  enumVals : Option (List Json) := none
  examples : Option (List Json) := none
deriving Repr

/-- `ToolSchema` (src/core/types.py). -/
structure ToolSchema where
  name : String
  description : String
  category : ToolCategory
  risk_level : RiskLevel
  parameters : List ToolParameter
  returns_description : String := ""
  requires_confirmation : Bool := false
  permission_tier : PermissionTier := .operator
deriving Repr

/-- `ToolRequest` (src/core/types.py).  The timestamp is not modelled. -/
structure ToolRequest where
  request_id : String := ""
  tool : String := ""
  arguments : List (String × Json) := []
  conversation_id : Option String := none
  step_number : Nat := 0
  requires_confirmation : Bool := false
  confirmed : Bool := false
deriving Repr

/-- `SideEffect` (src/core/types.py).  The dataclass performs no runtime
type validation, so every field carries the raw JSON value passed to
`SideEffect(**se)`. -/
structure SideEffect where
  type : Json
  path : Json := .null
  data : Json := .null
  reversible : Json := .bool true
  rollback_action : Json := .null
deriving Repr

/-- `ToolResult` (src/core/types.py).  `result`, `error` and `warnings`
are `Any`-typed in the source and carry raw JSON values here. -/
structure ToolResult where
  request_id : String
  status : ExecutionStatus
  result : Json := .null
  error : Option Json := none
  execution_time_ms : Int := 0
  side_effects : List SideEffect := []
  warnings : Json := .arr []
deriving Repr

/-- Observable behaviour of a handler submitted to the worker pool, as
seen through `future.result(timeout=self._timeout)`. -/
inductive HandlerOutcome where
  | ret (v : Json)
  | raises (msg : String)
  | timesOut

/-- A handler: validated argument dict to an observable outcome. -/
def ToolHandler : Type := List (String × Json) → HandlerOutcome

/-- `RegisteredTool` (src/tools/server.py). -/
structure RegisteredTool where
  schema : ToolSchema
  handler : ToolHandler
  enabled : Bool := true

/-- State of a `ToolServer` (src/tools/server.py).  The worker pool
itself is not state that the claims observe; its effect on one request is
`HandlerOutcome`. -/
structure ToolServer where
  tools : List (String × RegisteredTool) := []
  permission_tier : PermissionTier := .operator
  timeout : Nat := 30
  confirmation_callback : Option (ToolRequest → Bool) := none
  execution_history : List ToolResult := []

/-- `ToolServer.register_tool`: unconditional dict assignment — an
existing name is silently overwritten. -/
def register_tool (s : ToolServer) (schema : ToolSchema)
    (handler : ToolHandler) : ToolServer :=
  let entry : RegisteredTool := { schema := schema, handler := handler, enabled := true }
  { s with tools := dictInsert s.tools schema.name entry }

/-- `ToolServer.set_confirmation_callback`. -/
def set_confirmation_callback (s : ToolServer)
    (cb : ToolRequest → Bool) : ToolServer :=
  { s with confirmation_callback := some cb }

/-- `ToolServer.enable_tool`. -/
def enable_tool (s : ToolServer) (name : String) : ToolServer :=
  if (s.tools.lookup name).isSome then
    { s with tools := s.tools.map (fun kv =>
        if kv.1 = name then (kv.1, { kv.2 with enabled := true }) else kv) }
  else s

/-- `ToolServer.disable_tool`. -/
def disable_tool (s : ToolServer) (name : String) : ToolServer :=
  if (s.tools.lookup name).isSome then
    { s with tools := s.tools.map (fun kv =>
        if kv.1 = name then (kv.1, { kv.2 with enabled := false }) else kv) }
  else s

/-- `ToolServer._validate_type`.  Python's `isinstance(v, int)` is true
for `bool` values (bool subclasses int), mirrored here. -/
def validate_type (value : Json) (expected_type : String) : Bool :=
  if expected_type = "string" then
    match value with | .str _ => true | _ => false
  else if expected_type = "integer" then
    match value with | .num _ => true | .bool _ => true | _ => false
  else if expected_type = "number" then
    match value with | .num _ => true | .bool _ => true | _ => false
  else if expected_type = "boolean" then
    match value with | .bool _ => true | _ => false
  else if expected_type = "array" then
    match value with | .arr _ => true | _ => false
  else if expected_type = "object" then
    match value with | .obj _ => true | _ => false
  else
    true

/-- First required parameter that is absent from the arguments and has a
`None` default (the first loop of `validate_request`). -/
def findMissingRequired (params : List ToolParameter)
    (args : List (String × Json)) : Option String :=
  match params with
  | [] => none
  | p :: rest =>
    if p.required && !(dictContains args p.name) && p.default.isNone then
      some ("Missing required parameter: " ++ p.name)
    else
      findMissingRequired rest args

/-- First supplied argument whose runtime type mismatches its declared
type (the second loop of `validate_request`). -/
def findTypeMismatch (params : List ToolParameter)
    (args : List (String × Json)) : Option String :=
  match params with
  | [] => none
  | p :: rest =>
    match args.lookup p.name with
    | some value =>
      if !(validate_type value p.type) then
        some ("Invalid type for " ++ p.name ++ ": expected " ++ p.type)
      else
        findTypeMismatch rest args
    | none => findTypeMismatch rest args

/-- `ToolServer.validate_request`. -/
def validate_request (s : ToolServer) (request : ToolRequest) :
    Bool × Option String :=
  match s.tools.lookup request.tool with
  | none => (false, some ("Unknown tool: " ++ request.tool))
  | some tool =>
    if !tool.enabled then
      (false, some ("Tool is disabled: " ++ request.tool))
    else if pyStrGt tool.schema.permission_tier.value s.permission_tier.value then
      (false, some ("Insufficient permissions for tool: " ++ request.tool))
    else
      match findMissingRequired tool.schema.parameters request.arguments with
      | some msg => (false, some msg)
      | none =>
        match findTypeMismatch tool.schema.parameters request.arguments with
        | some msg => (false, some msg)
        | none => (true, none)

/-- `SideEffect(**se)`: keyword construction of the dataclass.  It
succeeds exactly when `se` is a mapping whose keys are all dataclass
fields and which binds the defaultless field `type`; otherwise Python
raises `TypeError`. -/
def sideEffectOfJson (j : Json) : Option SideEffect :=
  match j with
  | .obj kvs =>
    if kvs.all (fun kv =>
          ["type", "path", "data", "reversible", "rollback_action"].contains kv.1)
        && dictContains kvs "type" then
      some { type := dictGetD kvs "type" .null,
             path := dictGetD kvs "path" .null,
             data := dictGetD kvs "data" .null,
             reversible := dictGetD kvs "reversible" (.bool true),
             rollback_action := dictGetD kvs "rollback_action" .null }
    else none
  | _ => none

/-- `for se in result["side_effects"]: side_effects.append(SideEffect(**se))`.
A non-list value, or any element that `SideEffect(**se)` rejects, raises
inside the `try` block (the zero-iteration corner cases of an empty
string or empty dict are not distinguished and also count as raising). -/
def convertSideEffects (v : Json) : Option (List SideEffect) :=
  match v with
  | .arr items => items.mapM sideEffectOfJson
  | _ => none

/-- `ToolServer.execute`.  Returns the result, the post-state, and the
number of handler invocations performed during this call.  `elapsedMs`
stands for the measured `int((time.time() - start_time) * 1000)` at
whichever return point measures the clock; the timeout branch writes
`self._timeout * 1000` without measuring, exactly as the source does.
Every `return` before `self._execution_history.append(tool_result)`
leaves the history unchanged. -/
def execute (s : ToolServer) (request : ToolRequest) (elapsedMs : Int) :
    ToolResult × ToolServer × Nat :=
  match validate_request s request with
  | (false, err) =>
    ({ request_id := request.request_id, status := .failed,
       error := err.map .str, execution_time_ms := elapsedMs }, s, 0)
  | (true, _) =>
    match s.tools.lookup request.tool with
    | none =>
      -- unreachable: a passed validation guarantees the lookup succeeds
      -- (in the source `self._tools[request.tool]` would raise KeyError)
      ({ request_id := request.request_id, status := .failed,
         error := some (.str ("KeyError: " ++ request.tool)),
         execution_time_ms := elapsedMs }, s, 0)
    | some tool =>
      if tool.schema.requires_confirmation && !request.confirmed then
        ({ request_id := request.request_id, status := .confirmation_required,
           result := .obj [("message",
             .str ("Action '" ++ request.tool ++ "' requires confirmation"))],
           execution_time_ms := elapsedMs }, s, 0)
      else
        match tool.handler request.arguments with
        | .timesOut =>
          ({ request_id := request.request_id, status := .timeout,
             error := some (.str ("Tool execution timed out after "
               ++ toString s.timeout ++ "s")),
             execution_time_ms := (s.timeout * 1000 : Nat) }, s, 1)
        | .raises msg =>
          ({ request_id := request.request_id, status := .failed,
             error := some (.str msg), execution_time_ms := elapsedMs }, s, 1)
        | .ret v =>
          match v with
          | .obj members =>
            if dictContains members "error" then
              let r : ToolResult :=
                { request_id := request.request_id, status := .failed,
                  error := members.lookup "error",
                  execution_time_ms := elapsedMs }
              (r, { s with execution_history := s.execution_history ++ [r] }, 1)
            else
              match (members.lookup "side_effects").map convertSideEffects with
              | some none =>
                -- SideEffect(**se) raised; caught by `except Exception`
                -- (the interpreter's TypeError text is not reproduced)
                ({ request_id := request.request_id, status := .failed,
                   error := some (.str "TypeError: invalid side effect record"),
                   execution_time_ms := elapsedMs }, s, 1)
              | conv =>
                let ses := (conv.bind id).getD []
                let r : ToolResult :=
                  { request_id := request.request_id, status := .success,
                    result := dictGetD members "result" (.obj members),
                    side_effects := ses,
                    warnings := dictGetD members "warnings" (.arr []),
                    execution_time_ms := elapsedMs }
                (r, { s with execution_history := s.execution_history ++ [r] }, 1)
          | _ =>
            let r : ToolResult :=
              { request_id := request.request_id, status := .success,
                result := v, execution_time_ms := elapsedMs }
            (r, { s with execution_history := s.execution_history ++ [r] }, 1)

/-- `ToolServer.get_execution_history`: `self._execution_history[-limit:]`.
For a positive `limit` this is the most recent `limit` entries; Python's
`[-0:]` is the whole list. -/
def get_execution_history (s : ToolServer) (limit : Nat := 100) :
    List ToolResult :=
  if limit = 0 then s.execution_history
  else s.execution_history.drop (s.execution_history.length - limit)

/-! ## Response extractor (src/llm/client.py, `OllamaClient._parse_tool_call`)

The four regex strategies and the last-resort scan are modelled by
character-level scanning functions with the same matching semantics as
the source regexes on their inputs: `re.findall` of a
`OPEN\s*(.*?)\s*CLOSE` pattern with `re.DOTALL` captures, left to right
and non-overlapping, the whitespace-stripped text between each `OPEN`
occurrence and the next `CLOSE`; the flat-object pattern matches a brace
span containing no nested braces whose interior carries a
`"tool"\s*:\s*"..."` pair. -/

/-- Literal `{` (written via its code point to keep it out of string
literals). -/
def lbrace : Char := Char.ofNat 123

/-- Literal `}`. -/
def rbrace : Char := Char.ofNat 125

/-- The backquote character used by Markdown fences. -/
def backquote : Char := Char.ofNat 96

/-- ASCII whitespace as matched by `\s` / stripped by `str.strip()`. -/
def isPySpace (c : Char) : Bool :=
  c = ' ' || c = '\t' || c = '\n' || c = '\r' ||
  c = Char.ofNat 11 || c = Char.ofNat 12

/-- `str.strip()` / the `\s*(.*?)\s*` capture trimming. -/
def stripChars (s : List Char) : List Char :=
  ((s.dropWhile isPySpace).reverse.dropWhile isPySpace).reverse

/-- Character comparison, optionally case-insensitive (`re.IGNORECASE`). -/
def charEqCI (ci : Bool) (a b : Char) : Bool :=
  if ci then a.toLower == b.toLower else a == b

/-- Does `s` start with the token `tok`? -/
def startsWithTok (ci : Bool) : List Char → List Char → Bool
  | [], _ => true
  | _ :: _, [] => false
  | t :: ts, c :: cs => charEqCI ci t c && startsWithTok ci ts cs

/-- Leftmost occurrence of `tok` in `s`: returns the text before the
occurrence and the remainder after it. -/
def splitOnTok (ci : Bool) (tok : List Char) : List Char → Option (List Char × List Char)
  | [] => none
  | c :: rest =>
    if startsWithTok ci tok (c :: rest) then
      some ([], (c :: rest).drop tok.length)
    else
      match splitOnTok ci tok rest with
      | some (before, after) => some (c :: before, after)
      | none => none

/-- `re.findall(OPEN + r'\s*(.*?)\s*' + CLOSE, s, re.DOTALL)`: all
non-overlapping stripped captures, left to right (fuelled; the top-level
wrapper supplies enough fuel since every match consumes characters). -/
def findallDelimitedF (ci : Bool) (openTok closeTok : List Char) :
    Nat → List Char → List (List Char)
  | 0, _ => []
  | fuel + 1, s =>
    match splitOnTok ci openTok s with
    | none => []
    | some (_, rest) =>
      match splitOnTok ci closeTok rest with
      | none => []
      | some (inner, rest2) =>
        stripChars inner :: findallDelimitedF ci openTok closeTok fuel rest2

/-- Fuelled wrapper for `findallDelimitedF`. -/
def findallDelimited (ci : Bool) (openTok closeTok s : List Char) :
    List (List Char) :=
  findallDelimitedF ci openTok closeTok (s.length + 1) s

/-- Leftmost flat brace span (a `{`, no nested braces, then `}`) whose
interior satisfies `pred`: returns (before, span, rest).  When the span
starting at a `{` fails, scanning resumes at the next character, as the
regex engine does. -/
def findFlatSpan (pred : List Char → Bool) : List Char → Option (List Char × List Char × List Char)
  | [] => none
  | c :: rest =>
    if c = lbrace then
      let interior := rest.takeWhile (fun x => !(x = lbrace || x = rbrace))
      match rest.drop interior.length with
      | d :: rest3 =>
        if d = rbrace && pred interior then
          some ([], lbrace :: (interior ++ [rbrace]), rest3)
        else
          match findFlatSpan pred rest with
          | some (b, sp, r) => some (c :: b, sp, r)
          | none => none
      | [] => none
    else
      match findFlatSpan pred rest with
      | some (b, sp, r) => some (c :: b, sp, r)
      | none => none

/-- The token `"tool"` (quotes included). -/
def toolKeyTok : List Char := ['"', 't', 'o', 'o', 'l', '"']

/-- After the key token: `\s*:\s*"([^"]+)"` — returns the captured
string value. -/
def matchToolValue (s : List Char) : Option (List Char) :=
  match s.dropWhile isPySpace with
  | ':' :: s2 =>
    match s2.dropWhile isPySpace with
    | '"' :: s4 =>
      let content := s4.takeWhile (fun c => c ≠ '"')
      let rest := s4.drop content.length
      if content ≠ [] && rest ≠ [] then some content else none
    | _ => none
  | _ => none

/-- Leftmost full match of `"tool"\s*:\s*"([^"]+)"`, returning the
captured tool name. -/
def scanToolKV (ci : Bool) : List Char → Option (List Char)
  | [] => none
  | c :: rest =>
    if startsWithTok ci toolKeyTok (c :: rest) then
      match matchToolValue ((c :: rest).drop toolKeyTok.length) with
      | some name => some name
      | none => scanToolKV ci rest
    else scanToolKV ci rest

/-- Interior test of the fourth pattern
`(\{[^{}]*"tool"\s*:\s*"[^"]+?"[^{}]*\})` (compiled with IGNORECASE). -/
def hasToolKV (s : List Char) : Bool :=
  (scanToolKV true s).isSome

/-- `re.findall` of the flat tool-object pattern (fuelled). -/
def findallFlatToolObjF : Nat → List Char → List (List Char)
  | 0, _ => []
  | fuel + 1, s =>
    match findFlatSpan hasToolKV s with
    | none => []
    | some (_, span, rest) => span :: findallFlatToolObjF fuel rest

/-- All matches of the flat tool-object pattern. -/
def findallFlatToolObj (s : List Char) : List (List Char) :=
  findallFlatToolObjF (s.length + 1) s

/-- The brace-depth splitting loop of `_parse_tool_call` (lines 124-135):
tracks the nesting count of object delimiters, accumulates characters
while the count is positive, and emits a candidate each time the count
returns to zero with a non-empty accumulator. -/
def braceCandidatesAux : Int → List Char → List Char → List (List Char)
  | _, _, [] => []
  | count, current, c :: rest =>
    let count1 := if c = lbrace then count + 1 else count
    let current1 := if count1 > 0 then current ++ [c] else current
    if c = rbrace then
      let count2 := count1 - 1
      if count2 = 0 && current1 ≠ [] then
        current1 :: braceCandidatesAux count2 [] rest
      else
        braceCandidatesAux count2 current1 rest
    else
      braceCandidatesAux count1 current1 rest

/-- Candidate JSON objects found inside one regex match. -/
def braceCandidates (s : List Char) : List (List Char) :=
  braceCandidatesAux 0 [] s

/-- Lines 137-139: if the depth scan found nothing, fall back to the
whole (stripped) match as the only candidate. -/
def candidatesOfMatch (m : List Char) : List (List Char) :=
  match braceCandidates m with
  | [] => [stripChars m]
  | cs => cs

/-! ### `json.loads`

A recursive-descent model of the strict-mode `json.loads` used by the
extractor.  Numeric literals are modelled as (optionally signed)
integers: fractional/exponent numbers and `\uXXXX` escapes are treated
as parse failures; no claim involves them.  Duplicate object keys keep
the last value at the first key's position, as a Python dict does. -/

/-- JSON string escape characters (`\uXXXX` is not modelled). -/
def escChar (c : Char) : Option Char :=
  if c = '"' then some '"'
  else if c = '\\' then some '\\'
  else if c = '/' then some '/'
  else if c = 'b' then some (Char.ofNat 8)
  else if c = 'f' then some (Char.ofNat 12)
  else if c = 'n' then some '\n'
  else if c = 'r' then some '\r'
  else if c = 't' then some '\t'
  else none

/-- Parse a JSON string body (the opening quote already consumed).
Strict mode rejects raw control characters. -/
def parseStringBody : List Char → Option (List Char × List Char)
  | [] => none
  | c :: rest =>
    if c = '"' then some ([], rest)
    else if c = '\\' then
      match rest with
      | e :: rest2 =>
        match escChar e with
        | some ec =>
          match parseStringBody rest2 with
          | some (body, r) => some (ec :: body, r)
          | none => none
        | none => none
      | [] => none
    else if c.toNat < 32 then none
    else
      match parseStringBody rest with
      | some (body, r) => some (c :: body, r)
      | none => none

/-- Parse a JSON integer literal (no leading zeros, no fraction or
exponent — those are modelled as failures). -/
def parseIntLit (s : List Char) : Option (Int × List Char) :=
  let (neg, s1) : Bool × List Char :=
    match s with
    | '-' :: r => (true, r)
    | _ => (false, s)
  let digits := s1.takeWhile Char.isDigit
  let rest := s1.drop digits.length
  if digits = [] then none
  else if digits.head? = some '0' && digits.length ≠ 1 then none
  else
    match rest with
    | c :: _ =>
      if c = '.' || c = 'e' || c = 'E' then none
      else
        let n : Int := digits.foldl (fun acc d => acc * 10 + (d.toNat - 48 : Int)) 0
        some (if neg then -n else n, rest)
    | [] =>
      let n : Int := digits.foldl (fun acc d => acc * 10 + (d.toNat - 48 : Int)) 0
      some (if neg then -n else n, rest)

/-- Object member loop: positioned at a key (or nothing else); `pv`
parses one value.  Fuelled by the remaining input length. -/
def parseObjMembers (pv : List Char → Option (Json × List Char)) :
    Nat → List Char → List (String × Json) → Option (Json × List Char)
  | 0, _, _ => none
  | fuel + 1, s, acc =>
    match s with
    | '"' :: rest =>
      match parseStringBody rest with
      | some (key, r1) =>
        match r1.dropWhile isPySpace with
        | ':' :: r3 =>
          match pv r3 with
          | some (v, r4) =>
            let acc1 := dictInsert acc (String.mk key) v
            match r4.dropWhile isPySpace with
            | ',' :: r6 => parseObjMembers pv fuel (r6.dropWhile isPySpace) acc1
            | d :: r6 =>
              if d = rbrace then some (.obj acc1, r6) else none
            | [] => none
          | none => none
        | _ => none
      | none => none
    | _ => none

/-- Array item loop. -/
def parseArrItems (pv : List Char → Option (Json × List Char)) :
    Nat → List Char → List Json → Option (Json × List Char)
  | 0, _, _ => none
  | fuel + 1, s, acc =>
    match pv s with
    | some (v, r1) =>
      match r1.dropWhile isPySpace with
      | ',' :: r2 => parseArrItems pv fuel r2 (acc ++ [v])
      | ']' :: r2 => some (.arr (acc ++ [v]), r2)
      | _ => none
    | none => none

/-- Parse one JSON value (leading whitespace allowed).  The outer fuel
bounds nesting depth; inner member loops are fuelled by input length. -/
def parseJsonValue : Nat → List Char → Option (Json × List Char)
  | 0, _ => none
  | fuel + 1, s =>
    let s1 := s.dropWhile isPySpace
    match s1 with
    | [] => none
    | c :: rest =>
      if c = lbrace then
        let s2 := rest.dropWhile isPySpace
        match s2 with
        | d :: rest2 =>
          if d = rbrace then some (.obj [], rest2)
          else parseObjMembers (parseJsonValue fuel) (s2.length + 1) s2 []
        | [] => none
      else if c = '[' then
        let s2 := rest.dropWhile isPySpace
        match s2 with
        | ']' :: rest2 => some (.arr [], rest2)
        | _ => parseArrItems (parseJsonValue fuel) (s2.length + 1) s2 []
      else if c = '"' then
        match parseStringBody rest with
        | some (body, r) => some (.str (String.mk body), r)
        | none => none
      else if startsWithTok false ['t', 'r', 'u', 'e'] s1 then
        some (.bool true, s1.drop 4)
      else if startsWithTok false ['f', 'a', 'l', 's', 'e'] s1 then
        some (.bool false, s1.drop 5)
      else if startsWithTok false ['n', 'u', 'l', 'l'] s1 then
        some (.null, s1.drop 4)
      else
        match parseIntLit s1 with
        | some (n, r) => some (.num n, r)
        | none => none

/-- `json.loads`: the whole string must be one JSON document
(surrounding whitespace allowed). -/
def jsonLoads (s : List Char) : Option Json :=
  match parseJsonValue (s.length + 1) s with
  | some (v, rest) => if (rest.dropWhile isPySpace).isEmpty then some v else none
  | none => none

/-- `json_str.strip().startswith('{')`. -/
def startsWithBrace (s : List Char) : Bool :=
  match stripChars s with
  | c :: _ => c = lbrace
  | [] => false

/-- What `_parse_tool_call` returns: the raw values handed to
`ToolRequest(tool=data["tool"], arguments=data.get("arguments", {}))`. -/
def ParsedCall : Type := Json × Json

/-- Lines 142-154: one candidate.  Skipped unless it strips to a
brace-opened string; parsed with `json.loads`; succeeds when the parsed
object carries a `"tool"` member; the arguments default to an empty
mapping. -/
def tryCandidate (json_str : List Char) : Option ParsedCall :=
  if !startsWithBrace json_str then none
  else
    match jsonLoads json_str with
    | some (.obj data) =>
      if dictContains data "tool" then
        some ((data.lookup "tool").getD .null,
              (data.lookup "arguments").getD (.obj []))
      else none
    | _ => none

/-- The candidate loop: first candidate that parses and carries the
action-name field wins. -/
def tryCandidates : List (List Char) → Option ParsedCall
  | [] => none
  | c :: rest =>
    match tryCandidate c with
    | some r => some r
    | none => tryCandidates rest

/-- The match loop of one pattern. -/
def tryMatches : List (List Char) → Option ParsedCall
  | [] => none
  | m :: rest =>
    match tryCandidates (candidatesOfMatch m) with
    | some r => some r
    | none => tryMatches rest

/-- The four extraction strategies, in the order of `json_patterns`. -/
inductive ExtractStrategy where
  | pythonTags
  | fencedJson
  | fencedAny
  | bareToolObj
deriving DecidableEq, Repr

/-- The `<|python_start|>` delimiter. -/
def pyStartTok : List Char := "<|python_start|>".data

/-- The `<|python_end|>` delimiter. -/
def pyEndTok : List Char := "<|python_end|>".data

/-- A Markdown fence. -/
def fenceTok : List Char := List.replicate 3 backquote

/-- A fence tagged `json`. -/
def fenceJsonTok : List Char := fenceTok ++ ['j', 's', 'o', 'n']

/-- `re.findall(pattern, content, re.DOTALL | re.IGNORECASE)` for each
of the four patterns. -/
def strategyMatches : ExtractStrategy → List Char → List (List Char)
  | .pythonTags, s => findallDelimited true pyStartTok pyEndTok s
  | .fencedJson, s => findallDelimited true fenceJsonTok fenceTok s
  | .fencedAny, s => findallDelimited true fenceTok fenceTok s
  | .bareToolObj, s => findallFlatToolObj s

/-- The pattern loop (lines 116-157): patterns tried in order, the first
candidate anywhere that parses and carries the action-name field
returns immediately. -/
def tryStrategies (content : List Char) : List ExtractStrategy → Option ParsedCall
  | [] => none
  | p :: rest =>
    match tryMatches (strategyMatches p content) with
    | some r => some r
    | none => tryStrategies content rest

/-- The token `"arguments"` (quotes included). -/
def argsKeyTok : List Char := "\"arguments\"".data

/-- After the arguments key: `\s*:\s*(\{[^}]+\})` — the captured span
runs from the `{` to the next `}` and must be non-empty inside. -/
def matchArgsValue (s : List Char) : Option (List Char) :=
  match s.dropWhile isPySpace with
  | ':' :: s2 =>
    match s2.dropWhile isPySpace with
    | c :: s4 =>
      if c = lbrace then
        let inner := s4.takeWhile (fun x => x ≠ rbrace)
        let rest := s4.drop inner.length
        if inner ≠ [] && rest ≠ [] then some (lbrace :: (inner ++ [rbrace]))
        else none
      else none
    | [] => none
  | _ => none

/-- Leftmost full match of `"arguments"\s*:\s*(\{[^}]+\})`
(case-sensitive, as in the source's last-resort scan). -/
def scanArgsSpan : List Char → Option (List Char)
  | [] => none
  | c :: rest =>
    if startsWithTok false argsKeyTok (c :: rest) then
      match matchArgsValue ((c :: rest).drop argsKeyTok.length) with
      | some span => some span
      | none => scanArgsSpan rest
    else scanArgsSpan rest

/-- Lines 159-176: the last-resort scan.  A `"tool": "name"` pair found
anywhere yields a request; a best-effort adjacent arguments object is
parsed, and any parse failure leaves the arguments empty. -/
def fallbackExtract (content : List Char) : Option ParsedCall :=
  match scanToolKV false content with
  | none => none
  | some name =>
    let args : Json :=
      match scanArgsSpan content with
      | some span => (jsonLoads span).getD (.obj [])
      | none => .obj []
    some (.str (String.mk name), args)

/-- `OllamaClient._parse_tool_call`. -/
def parse_tool_call (content : String) : Option ParsedCall :=
  match tryStrategies content.data
      [.pythonTags, .fencedJson, .fencedAny, .bareToolObj] with
  | some r => some r
  | none => fallbackExtract content.data

/-- The spec's wording of the extractor (§4.2): an ordered list of
independent strategies; the first strategy that yields at least one
syntactically valid structured object containing an action-name field
wins; within a matched span, candidates split by delimiter-nesting depth
are parsed left-to-right and the first that parses and contains the
action-name field is returned; if all structured strategies fail, the
last-resort pattern scan runs. -/
def specExtract (content : String) : Option ParsedCall :=
  let structured :=
    [ExtractStrategy.pythonTags, .fencedJson, .fencedAny, .bareToolObj].findSome?
      (fun p =>
        (strategyMatches p content.data).findSome?
          (fun m => (candidatesOfMatch m).findSome? tryCandidate))
  match structured with
  | some r => some r
  | none => fallbackExtract content.data

/-! ## Turn controller (src/orchestrator/agent.py, `AgentOrchestrator`)

The model gateway is an oracle mapping the iteration number to either a
raised error (`requests` timeout/connection failures, re-raised to the
orchestrator's `except`) or the reply text; the reply's `tool_calls`
list is derived from the text by `parse_tool_call` exactly as
`OllamaClient.chat` does.  Observability callbacks (`_emit_*`) carry no
control flow and are not modelled.  Request ids (uuid4 in the source)
are modelled as the iteration number. -/

/-- One entry of the `messages` list sent to the gateway. -/
structure PyMessage where
  role : String
  content : String

mutual
/-- Compact rendering of a JSON value (`json.dumps`; the source passes
`indent=2`, whose extra whitespace is not reproduced — no claim reads
the rendered text). -/
def jsonRender : Json → String
  | .null => "null"
  | .bool true => "true"
  | .bool false => "false"
  | .num n => toString n
  | .str s => "\"" ++ s ++ "\""
  | .arr items => "[" ++ jsonRenderItems items ++ "]"
  | .obj kvs => "\x7b" ++ jsonRenderMembers kvs ++ "\x7d"

def jsonRenderItems : List Json → String
  | [] => ""
  | [x] => jsonRender x
  | x :: y :: rest => jsonRender x ++ ", " ++ jsonRenderItems (y :: rest)

def jsonRenderMembers : List (String × Json) → String
  | [] => ""
  | [(k, v)] => "\"" ++ k ++ "\": " ++ jsonRender v
  | (k, v) :: m :: rest =>
    "\"" ++ k ++ "\": " ++ jsonRender v ++ ", " ++ jsonRenderMembers (m :: rest)
end

/-- `AgentOrchestrator._format_tool_result_for_llm`. -/
def format_tool_result_for_llm (result : ToolResult) : String :=
  if result.status = .success then
    let result_str := jsonRender result.result
    let result_str :=
      if result_str.length > 1000 then result_str.take 1000 ++ "... (truncated)"
      else result_str
    "Tool '" ++ result.request_id ++ "' executed successfully.\nResult: " ++ result_str
  else if result.status = .confirmation_required then
    "Tool requires confirmation from user. Please ask the user if they want to proceed."
  else if result.status = .cancelled then
    "User cancelled this operation."
  else
    "Tool failed with error: " ++
      (match result.error with
       | some (.str s) => s
       | some e => jsonRender e
       | none => "None")

/-- Substring test. -/
def containsTok (ci : Bool) (tok s : List Char) : Bool :=
  (splitOnTok ci tok s).isSome

/-- `re.sub(OPEN + '.*?' + CLOSE, '', s, re.DOTALL)`: drop every minimal
delimited span (fuelled). -/
def removeDelimitedF (openTok closeTok : List Char) : Nat → List Char → List Char
  | 0, s => s
  | fuel + 1, s =>
    match splitOnTok false openTok s with
    | none => s
    | some (before, rest) =>
      match splitOnTok false closeTok rest with
      | none => s
      | some (_, rest2) => before ++ removeDelimitedF openTok closeTok fuel rest2

/-- At a position right after the opening token of
`OPEN\s*\{[^`]*\}\s*CLOSE-FENCE`: whitespace, an opening brace, a run of
non-backquote characters whose last non-whitespace character is the
closing brace, then a fence.  Returns the remainder after the fence. -/
def matchFencedObjAt (s : List Char) : Option (List Char) :=
  match s.dropWhile isPySpace with
  | c :: s2 =>
    if c = lbrace then
      let run := s2.takeWhile (fun x => x ≠ backquote)
      let rest := s2.drop run.length
      match run.reverse.dropWhile isPySpace with
      | d :: _ =>
        if d = rbrace && startsWithTok false fenceTok rest then
          some (rest.drop fenceTok.length)
        else none
      | [] => none
    else none
  | [] => none

/-- `re.sub` of the fenced-object patterns of `_clean_response`
(fuelled).  When an opening token is not followed by a full match, its
text is kept and scanning resumes after it (overlapping-delimiter corner
cases where the engine would retry inside the occurrence are not
distinguished; no claim reads the cleaned text). -/
def removeFencedObjF (openTok : List Char) : Nat → List Char → List Char
  | 0, s => s
  | fuel + 1, s =>
    match splitOnTok false openTok s with
    | none => s
    | some (before, rest) =>
      match matchFencedObjAt rest with
      | some rest2 => before ++ removeFencedObjF openTok fuel rest2
      | none => before ++ openTok ++ removeFencedObjF openTok fuel rest

/-- `re.sub(r'\{[^{}]*"tool"[^{}]*\}', '', s)` (fuelled). -/
def removeFlatToolSpansF : Nat → List Char → List Char
  | 0, s => s
  | fuel + 1, s =>
    match findFlatSpan (containsTok false toolKeyTok) s with
    | none => s
    | some (before, _, rest) => before ++ removeFlatToolSpansF fuel rest

/-- `re.sub(r'\n{3,}', '\n\n', s)` (fuelled). -/
def collapseNewlinesF : Nat → List Char → List Char
  | 0, s => s
  | _ + 1, [] => []
  | fuel + 1, c :: rest =>
    if c = '\n' then
      let run := rest.takeWhile (fun x => x = '\n')
      let rest2 := rest.drop run.length
      if run.length + 1 ≥ 3 then '\n' :: '\n' :: collapseNewlinesF fuel rest2
      else (c :: run) ++ collapseNewlinesF fuel rest2
    else c :: collapseNewlinesF fuel rest

/-- `AgentOrchestrator._clean_response`. -/
def clean_response (content : String) : String :=
  let c1 := removeDelimitedF pyStartTok pyEndTok (content.data.length + 1) content.data
  let c2 := removeFencedObjF fenceJsonTok (c1.length + 1) c1
  let c3 := removeFencedObjF fenceTok (c2.length + 1) c2
  let c4 := removeFlatToolSpansF (c3.length + 1) c3
  let c5 := collapseNewlinesF (c4.length + 1) c4
  String.mk (stripChars c5)

/-- `ToolRequest(tool=data["tool"], arguments=data.get("arguments", {}))`:
the parsed values are stored unchanged in the source; a non-string tool
value (which would simply fail the registry lookup) and a non-object
arguments value (which would crash validation) are outside every claim
and are mapped to the empty name / empty mapping here. -/
def parsedToRequest (reqId : String) (p : ParsedCall) : ToolRequest :=
  { request_id := reqId,
    tool := match p.1 with | .str s => s | _ => "",
    arguments := match p.2 with | .obj kvs => kvs | _ => [] }

/-- What one action-proposing iteration did: the requests actually
passed to `execute` (with their results) and the result variable fed
back into the conversation. -/
inductive TurnEvent where
  | toolTurn (request : ToolRequest)
      (calls : List (ToolRequest × ToolResult)) (finalResult : ToolResult)
  | answerTurn (raw : String) (cleaned : String)
  | gatewayError (msg : String)

/-- Lines 184-208 of `process`: execute the proposed request; on a
confirmation_required result, consult `self._confirmation_handler` if
set (approval resubmits the request with `confirmed=True` and executes
again; denial synthesizes a cancelled result); with no handler set the
block is skipped and the confirmation_required result stands. -/
def runToolTurn (s : ToolServer) (handler? : Option (ToolRequest → Bool))
    (req : ToolRequest) (elapsedMs : Int) :
    ToolServer × List (ToolRequest × ToolResult) × ToolResult :=
  let out := execute s req elapsedMs
  let result := out.1
  let s1 := out.2.1
  if result.status = .confirmation_required then
    match handler? with
    | some h =>
      if h req then
        let req2 := { req with confirmed := true }
        let out2 := execute s1 req2 elapsedMs
        (out2.2.1, [(req, result), (req2, out2.1)], out2.1)
      else
        (s1, [(req, result)],
          { request_id := req.request_id, status := .cancelled,
            error := some (.str "User cancelled the operation") })
    | none => (s1, [(req, result)], result)
  else
    (s1, [(req, result)], result)

/-- Result of a `process` run. -/
structure ProcessOut where
  final_response : String
  server : ToolServer
  trace : List TurnEvent
  messages : List PyMessage

/-- The `while iterations < self.max_iterations` loop of `process`.
`fuel` is `max_iterations - iterations`; `iterNum` is the value of
`iterations` after its increment at the top of the body.  Exhausting the
budget leaves `final_response` at its initial empty string. -/
def agentLoop (oracle : Nat → Except String String)
    (handler? : Option (ToolRequest → Bool)) (elapsedMs : Int) :
    Nat → ToolServer → List PyMessage → Nat → List TurnEvent → ProcessOut
  | 0, s, msgs, _, trace =>
    { final_response := "", server := s, trace := trace, messages := msgs }
  | fuel + 1, s, msgs, iterNum, trace =>
    match oracle iterNum with
    | .error e =>
      { final_response :=
          "I encountered an error communicating with the AI model: " ++ e,
        server := s, trace := trace ++ [.gatewayError e], messages := msgs }
    | .ok content =>
      match parse_tool_call content with
      | some parsed =>
        let req := parsedToRequest (toString iterNum) parsed
        let turn := runToolTurn s handler? req elapsedMs
        let text := format_tool_result_for_llm turn.2.2
        let msgs2 := msgs ++
          [{ role := "assistant", content := content },
           { role := "user", content := "[Tool Result]\n" ++ text ++
              "\n\nPlease continue with the task or provide a summary if complete." }]
        agentLoop oracle handler? elapsedMs fuel turn.1 msgs2 (iterNum + 1)
          (trace ++ [.toolTurn req turn.2.1 turn.2.2])
      | none =>
        let cleaned := clean_response content
        let finalResp :=
          if cleaned = "" || cleaned.length < 5 then "Done!" else cleaned
        { final_response := finalResp, server := s,
          trace := trace ++ [.answerTurn content cleaned], messages := msgs }

/-- `AgentOrchestrator.process`: append the user message to the
conversation, window the last 20 messages, and run the loop. -/
def process (oracle : Nat → Except String String)
    (handler? : Option (ToolRequest → Bool)) (elapsedMs : Int)
    (max_iterations : Nat) (s : ToolServer)
    (conversation : List PyMessage) (user_input : String) : ProcessOut :=
  let conv := conversation ++ [{ role := "user", content := user_input }]
  let msgs := conv.drop (conv.length - 20)
  agentLoop oracle handler? elapsedMs max_iterations s msgs 1 []

/-! ## Observation helpers and concrete fixtures -/

/-- Status of the result an action iteration fed back. -/
def TurnEvent.finalStatus : TurnEvent → Option ExecutionStatus
  | .toolTurn _ _ r => some r.status
  | _ => none

/-- How many times the iteration called `execute`. -/
def TurnEvent.callCount : TurnEvent → Nat
  | .toolTurn _ calls _ => calls.length
  | _ => 0

/-- Did the iteration resubmit a request with `confirmed=True`? -/
def TurnEvent.hasResubmission : TurnEvent → Bool
  | .toolTurn _ calls _ => calls.any (fun c => c.1.confirmed)
  | _ => false

/-- How the turn loop resolves a confirmation_required result within its
iteration: with a configured handler, approval resubmits the same
request with `confirmed=True` and executes it again, denial replaces the
result with a cancelled one; with no handler configured the
confirmation_required result itself stands (no resubmission, no
cancellation). -/
def confirmationPolicy (handler? : Option (ToolRequest → Bool)) : TurnEvent → Prop
  | .toolTurn req calls final =>
    ∀ r1, calls.head? = some (req, r1) → r1.status = .confirmation_required →
      match handler? with
      | none => calls = [(req, r1)] ∧ final = r1
      | some h =>
        if h req then
          ∃ r2, calls = [(req, r1), ({ req with confirmed := true }, r2)] ∧ final = r2
        else
          calls = [(req, r1)] ∧ final.status = .cancelled
  | _ => True

/-- Handler that returns a plain payload. -/
def echoHandler : ToolHandler := fun _ => .ret (.str "ok")

/-- Handler that never completes within the configured timeout. -/
def timesOutHandler : ToolHandler := fun _ => .timesOut

/-- A plain operator-tier tool. -/
def echoSchema : ToolSchema :=
  { name := "echo", description := "echo back", category := .system,
    risk_level := .low, parameters := [] }

/-- A tool flagged `requires_confirmation`. -/
def deleteSchema : ToolSchema :=
  { name := "delete_file", description := "delete a file",
    category := .file_system, risk_level := .high, parameters := [],
    requires_confirmation := true }

/-- A tool whose handler exceeds the timeout. -/
def slowSchema : ToolSchema :=
  { name := "slow_echo", description := "sleeps past the timeout",
    category := .system, risk_level := .low, parameters := [] }

/-- An administrator-tier tool. -/
def regEditSchema : ToolSchema :=
  { name := "reg_edit", description := "edit the registry",
    category := .system, risk_level := .critical, parameters := [],
    permission_tier := .administrator }

/-- An operator-tier server (the constructor default) with a 1 second
timeout and the four fixture tools. -/
def fixtureServer : ToolServer :=
  { tools :=
      [("echo", { schema := echoSchema, handler := echoHandler }),
       ("delete_file", { schema := deleteSchema, handler := echoHandler }),
       ("slow_echo", { schema := slowSchema, handler := timesOutHandler }),
       ("reg_edit", { schema := regEditSchema, handler := echoHandler })],
    permission_tier := .operator, timeout := 1 }

/-- Request for the plain tool. -/
def echoRequest : ToolRequest := { request_id := "r-echo", tool := "echo" }

/-- Unconfirmed request for the confirmation-flagged tool. -/
def deleteRequest : ToolRequest := { request_id := "r-del", tool := "delete_file" }

/-- Request for the over-budget tool. -/
def slowRequest : ToolRequest := { request_id := "r-slow", tool := "slow_echo" }

/-- Request for the administrator-tier tool. -/
def regEditRequest : ToolRequest := { request_id := "r-reg", tool := "reg_edit" }

/-- Request for a name that was never registered. -/
def unknownRequest : ToolRequest := { request_id := "r-unk", tool := "no_such_tool" }

/-- A model that proposes the confirmation-flagged action on the first
iteration and answers plainly afterwards. -/
def confirmOracle : Nat → Except String String := fun n =>
  if n = 1 then .ok "```json\n\x7b\"tool\": \"delete_file\"\x7d\n```"
  else .ok "All done here."

/-- Turn-loop run with no confirmation handler configured. -/
def c4NoHandlerRun : ProcessOut :=
  process confirmOracle none 0 10 fixtureServer [] "please delete"

/-- Turn-loop run whose confirmation handler denies. -/
def c4DenyRun : ProcessOut :=
  process confirmOracle (some (fun _ => false)) 0 10 fixtureServer [] "please delete"

/-- The request the loop builds from the first proposal. -/
def c4Request : ToolRequest := { request_id := "1", tool := "delete_file" }

/-- The confirmation_required result of the first execute call. -/
def c4ConfirmResult : ToolResult :=
  { request_id := "1", status := .confirmation_required,
    result := .obj [("message", .str "Action 'delete_file' requires confirmation")] }

/-- The first trace event of the denial run. -/
def c4DenyEvent : TurnEvent :=
  .toolTurn c4Request [(c4Request, c4ConfirmResult)]
    { request_id := "1", status := .cancelled,
      error := some (.str "User cancelled the operation") }

/-- First registration under the name "t". -/
def dupOldSchema : ToolSchema :=
  { name := "t", description := "old", category := .system,
    risk_level := .low, parameters := [] }

/-- Second registration under the same name "t". -/
def dupNewSchema : ToolSchema :=
  { name := "t", description := "new", category := .system,
    risk_level := .low, parameters := [] }

/-- A server whose history already holds three results. -/
def histServer : ToolServer :=
  { execution_history :=
      [{ request_id := "h1", status := .success },
       { request_id := "h2", status := .failed },
       { request_id := "h3", status := .success }] }

/-- A fenced block holding two concatenated objects, both carrying the
action-name field. -/
def twoToolObjsInput : String :=
  "```json\n\x7b\"tool\": \"first\"\x7d \x7b\"tool\": \"second\"\x7d\n```"

/-- A fenced block holding two concatenated objects of which only the
second carries the action-name field (the second also nests an object). -/
def mixedObjsInput : String :=
  "```json\n\x7b\"a\": 1\x7d \x7b\"tool\": \"app_open\", \"arguments\": \x7b\"identifier\": \"notepad\"\x7d\x7d\n```"

/-- Model-specific delimiters (strategy 1) and a fenced block
(strategy 2) both present; strategy order decides. -/
def priorityInput : String :=
  "<|python_start|>\x7b\"tool\": \"alpha\"\x7d<|python_end|> and ```json\n\x7b\"tool\": \"beta\"\x7d\n```"

/-- A fenced object with the action-name field but no arguments member. -/
def noArgsInput : String := "```json\n\x7b\"tool\": \"screenshot\"\x7d\n```"

/-- Is a JSON value a Python dict (`isinstance(result, dict)`)? -/
def Json.isObj : Json → Bool
  | .obj _ => true
  | _ => false

/-- Does classifying a handler-returned dict raise while converting its
side-effect records (`SideEffect(**se)` / iterating a non-list) — the
only exception the classification path itself raises in the model? -/
def sideEffectsRaise (members : List (String × Json)) : Bool :=
  match (members.lookup "side_effects").map convertSideEffects with
  | some none => true
  | _ => false

/-- A tool whose handler raises. -/
def raiserSchema : ToolSchema :=
  { name := "raiser", description := "raises an exception",
    category := .system, risk_level := .low, parameters := [] }

/-- A tool whose handler returns an error-carrying dict. -/
def errSchema : ToolSchema :=
  { name := "errtool", description := "returns an error payload",
    category := .system, risk_level := .low, parameters := [] }

/-- A tool whose handler returns a dict with malformed side effects. -/
def badseSchema : ToolSchema :=
  { name := "badse", description := "returns malformed side effects",
    category := .system, risk_level := .low, parameters := [] }

/-- A tool whose handler returns a well-formed result dict. -/
def goodDictSchema : ToolSchema :=
  { name := "gooddict", description := "returns a result dict",
    category := .system, risk_level := .low, parameters := [] }

/-- Handler that raises with message "boom". -/
def raiseHandler : ToolHandler := fun _ => .raises "boom"

/-- Handler returning `{"error": "nope"}`. -/
def errorPayloadHandler : ToolHandler := fun _ => .ret (.obj [("error", .str "nope")])

/-- Handler returning `{"side_effects": 3}` — iterating the non-list
raises during classification. -/
def badSideEffectsHandler : ToolHandler := fun _ => .ret (.obj [("side_effects", .num 3)])

/-- Handler returning `{"result": "done"}`. -/
def goodDictHandler : ToolHandler := fun _ => .ret (.obj [("result", .str "done")])

/-- A server exercising the handler-outcome classification branches. -/
def raiseServer : ToolServer :=
  { tools :=
      [("raiser", { schema := raiserSchema, handler := raiseHandler }),
       ("errtool", { schema := errSchema, handler := errorPayloadHandler }),
       ("badse", { schema := badseSchema, handler := badSideEffectsHandler }),
       ("gooddict", { schema := goodDictSchema, handler := goodDictHandler })] }

/-- Request for the raising tool. -/
def raiserRequest : ToolRequest := { request_id := "r-raise", tool := "raiser" }

/-- Request for the error-payload tool. -/
def errRequest : ToolRequest := { request_id := "r-err", tool := "errtool" }

/-- Request for the malformed-side-effects tool. -/
def badseRequest : ToolRequest := { request_id := "r-badse", tool := "badse" }

/-- Request for the well-formed-dict tool. -/
def goodDictRequest : ToolRequest := { request_id := "r-good", tool := "gooddict" }

/-! ## Helper lemmas -/

/-- Looking up the key just written by a dict assignment yields the new
value. -/
theorem lookup_dictInsert {α : Type} (d : List (String × α)) (k : String) (v : α) :
    (dictInsert d k v).lookup k = some v := by
  induction d with
  | nil => simp [dictInsert, List.lookup]
  | cons hd tl ih =>
    rcases hd with ⟨k', v'⟩
    by_cases h : k' = k
    · subst h
      simp [dictInsert, List.lookup]
    · have hbeq : (k == k') = false :=
        beq_eq_false_iff_ne.mpr (fun he => h he.symm)
      simp [dictInsert, h, List.lookup, hbeq, ih]

/-! ## Theorems for the claims -/

/-- C1.  The permission gate does not follow the declared tier order:
`validate_request` compares the tiers' enum value strings
lexicographically, and "administrator" < "operator" in that order, so an
administrator-tier action passes the permission check and is dispatched
(handler invoked once) when the runtime tier is operator; moreover no
branch of `execute` ever produces the permission_denied status (denials
surface as status failed).  The spec's claim — rejection with
permission_denied under an operator tier — is the intended behaviour
(the enum declares the ascending privilege order that `rank` records),
and the code contradicts it. -/
theorem C1_admin_tool_accepted_under_operator_tier :
    (validate_request fixtureServer regEditRequest).1 = true ∧
    (execute fixtureServer regEditRequest 0).2.2 = 1 ∧
    pyStrGt PermissionTier.administrator.value PermissionTier.operator.value = false ∧
    PermissionTier.operator.rank < PermissionTier.administrator.rank ∧
    (∀ (s : ToolServer) (req : ToolRequest) (elapsedMs : Int),
      ((execute s req elapsedMs).1.status == ExecutionStatus.permission_denied) = false) := by
  refine ⟨rfl, rfl, rfl, by decide, ?_⟩
  intro s req elapsedMs
  unfold execute
  repeat' split
  all_goals rfl

/-- C2.  For a registered action whose descriptor has
requires_confirmation and a validated request with confirmed=False,
`execute` returns confirmation_required and never submits the handler to
the worker pool (zero invocations for that request). -/
theorem C2_confirmation_gate (s : ToolServer) (req : ToolRequest)
    (elapsedMs : Int) (tool : RegisteredTool)
    (hv : (validate_request s req).1 = true)
    (hl : s.tools.lookup req.tool = some tool)
    (hc : tool.schema.requires_confirmation = true)
    (hnc : req.confirmed = false) :
    (execute s req elapsedMs).1.status = ExecutionStatus.confirmation_required ∧
    (execute s req elapsedMs).2.2 = 0 := by
  rcases hval : validate_request s req with ⟨b, err⟩
  rw [hval] at hv
  simp at hv
  subst hv
  unfold execute
  rw [hval]
  simp [hl, hc, hnc]

/-- C2 witness: the unconfirmed request for the confirmation-flagged
fixture tool is held at the gate with zero handler invocations. -/
theorem C2_confirmation_gate_witness :
    (execute fixtureServer deleteRequest 0).1.status = ExecutionStatus.confirmation_required ∧
    (execute fixtureServer deleteRequest 0).2.2 = 0 :=
  C2_confirmation_gate fixtureServer deleteRequest 0
    { schema := deleteSchema, handler := echoHandler } rfl rfl rfl rfl

/-- C3.  One call to `execute` submits the handler to the worker pool at
most once, and exactly once when the request is accepted for dispatch
(validation passes and it is not held at the confirmation gate) —
whatever the outcome (success, error payload, exception, timeout), the
runtime never submits it a second time. -/
theorem C3_handler_invoked_exactly_once (s : ToolServer) (req : ToolRequest)
    (elapsedMs : Int) :
    (execute s req elapsedMs).2.2 ≤ 1 ∧
    ((validate_request s req).1 = true →
     (∀ tool, s.tools.lookup req.tool = some tool →
        (tool.schema.requires_confirmation && !req.confirmed) = false) →
     (execute s req elapsedMs).2.2 = 1) := by
  constructor
  · unfold execute
    repeat' split
    all_goals simp
  · intro hv hgate
    rcases hval : validate_request s req with ⟨b, err⟩
    rw [hval] at hv
    simp at hv
    subst hv
    rcases hlk : s.tools.lookup req.tool with _ | tool
    · unfold validate_request at hval
      rw [hlk] at hval
      simp at hval
    · have hg := hgate tool hlk
      unfold execute
      rw [hval]
      simp only [hlk, hg]
      repeat' split
      all_goals simp_all

/-- C3 witness: the accepted fixture request dispatches its handler
exactly once. -/
theorem C3_handler_invoked_exactly_once_witness :
    (execute fixtureServer echoRequest 0).2.2 = 1 :=
  (C3_handler_invoked_exactly_once fixtureServer echoRequest 0).2 rfl
    (fun tool h => by injection h with h2; rw [← h2]; exact rfl)

/-- C6.  An accepted request whose handler does not complete within the
configured timeout yields status timeout, and the recorded elapsed time
is the configured bound itself (`self._timeout * 1000` milliseconds), in
particular at least the bound. -/
theorem C6_timeout_elapsed_at_least_bound (s : ToolServer) (req : ToolRequest)
    (elapsedMs : Int) (tool : RegisteredTool)
    (hv : (validate_request s req).1 = true)
    (hl : s.tools.lookup req.tool = some tool)
    (hgate : (tool.schema.requires_confirmation && !req.confirmed) = false)
    (hto : tool.handler req.arguments = HandlerOutcome.timesOut) :
    (execute s req elapsedMs).1.status = ExecutionStatus.timeout ∧
    (execute s req elapsedMs).1.execution_time_ms = ((s.timeout * 1000 : Nat) : Int) ∧
    ((s.timeout * 1000 : Nat) : Int) ≤ (execute s req elapsedMs).1.execution_time_ms := by
  rcases hval : validate_request s req with ⟨b, err⟩
  rw [hval] at hv
  simp at hv
  subst hv
  unfold execute
  rw [hval]
  simp [hl, hgate, hto]

/-- C6 witness: the fixture tool whose handler outruns the 1 second
timeout yields status timeout with recorded elapsed 1000 ms ≥ 1000 ms. -/
theorem C6_timeout_elapsed_at_least_bound_witness :
    (execute fixtureServer slowRequest 0).1.status = ExecutionStatus.timeout ∧
    (execute fixtureServer slowRequest 0).1.execution_time_ms = (1000 : Int) ∧
    (1000 : Int) ≤ (execute fixtureServer slowRequest 0).1.execution_time_ms :=
  C6_timeout_elapsed_at_least_bound fixtureServer slowRequest 0
    { schema := slowSchema, handler := timesOutHandler } rfl rfl rfl rfl

/-- C9 counterexample.  Registering a name that already exists does not
fail with a DuplicateName error and does not leave the existing
registration unchanged: `register_tool` is an unconditional dict
assignment, so the second registration replaces the first (the stored
schema's description changes from "old" to "new" and the catalog still
holds one entry). -/
theorem C9_duplicate_name_overwrites :
    (((register_tool (register_tool ({} : ToolServer) dupOldSchema echoHandler)
        dupNewSchema echoHandler).tools.lookup "t").map
          (fun rt => rt.schema.description)) = some "new" ∧
    (register_tool (register_tool ({} : ToolServer) dupOldSchema echoHandler)
        dupNewSchema echoHandler).tools.length = 1 ∧
    (dupNewSchema.description == dupOldSchema.description) = false :=
  ⟨rfl, rfl, rfl⟩

/-- C9 amended.  Registering a name silently replaces whatever was
registered under it: after `register_tool`, looking the name up yields
the new schema and handler (enabled), whether or not the name existed. -/
theorem C9_register_replaces_existing (s : ToolServer) (schema : ToolSchema)
    (handler : ToolHandler) :
    (register_tool s schema handler).tools.lookup schema.name =
      some { schema := schema, handler := handler, enabled := true } :=
  lookup_dictInsert s.tools schema.name _

/-- C5 counterexample.  Not every terminal result is appended to the
execution history: a validation-failure result (unknown tool), a timeout
result and a confirmation_required result are all returned without
touching the history (the fixture server's history stays empty), because
`execute` returns on those paths before reaching
`self._execution_history.append(tool_result)`. -/
theorem C5_terminal_results_not_appended :
    (execute fixtureServer unknownRequest 0).1.status = ExecutionStatus.failed ∧
    (execute fixtureServer unknownRequest 0).2.1.execution_history = [] ∧
    (execute fixtureServer slowRequest 0).1.status = ExecutionStatus.timeout ∧
    (execute fixtureServer slowRequest 0).2.1.execution_history = [] ∧
    (execute fixtureServer deleteRequest 0).2.1.execution_history = [] :=
  ⟨rfl, rfl, rfl, rfl, rfl⟩

/-- C5 amended.  The history is append-only and every branch of
`execute` is characterised: one call either leaves the history unchanged
or appends exactly its returned result; validation-failure,
confirmation_required, timeout, handler-exception (raised in the handler
or while classifying its side-effect records) results are all returned
without being recorded; results of the handler-completion classification
path — failed carrying a handler-returned error payload, a classified
dict success, or a plain-payload success — are always recorded; and
reading the history with a positive limit yields at most the most recent
`limit` entries (a suffix of the history). -/
theorem C5_history_append_only_and_bounded (s : ToolServer)
    (req : ToolRequest) (elapsedMs : Int) :
    ((execute s req elapsedMs).2.1.execution_history = s.execution_history ∨
     (execute s req elapsedMs).2.1.execution_history =
       s.execution_history ++ [(execute s req elapsedMs).1]) ∧
    ((execute s req elapsedMs).1.status = ExecutionStatus.confirmation_required ∨
     (execute s req elapsedMs).1.status = ExecutionStatus.timeout →
     (execute s req elapsedMs).2.1.execution_history = s.execution_history) ∧
    ((validate_request s req).1 = false →
     (execute s req elapsedMs).2.1.execution_history = s.execution_history ∧
     (execute s req elapsedMs).1.status = ExecutionStatus.failed) ∧
    (∀ (tool : RegisteredTool) (msg : String),
      (validate_request s req).1 = true →
      s.tools.lookup req.tool = some tool →
      (tool.schema.requires_confirmation && !req.confirmed) = false →
      tool.handler req.arguments = HandlerOutcome.raises msg →
      (execute s req elapsedMs).2.1.execution_history = s.execution_history ∧
      (execute s req elapsedMs).1.status = ExecutionStatus.failed) ∧
    (∀ (tool : RegisteredTool) (members : List (String × Json)),
      (validate_request s req).1 = true →
      s.tools.lookup req.tool = some tool →
      (tool.schema.requires_confirmation && !req.confirmed) = false →
      tool.handler req.arguments = HandlerOutcome.ret (Json.obj members) →
      dictContains members "error" = true →
      (execute s req elapsedMs).2.1.execution_history =
        s.execution_history ++ [(execute s req elapsedMs).1] ∧
      (execute s req elapsedMs).1.status = ExecutionStatus.failed ∧
      (execute s req elapsedMs).1.error = members.lookup "error") ∧
    (∀ (tool : RegisteredTool) (members : List (String × Json)),
      (validate_request s req).1 = true →
      s.tools.lookup req.tool = some tool →
      (tool.schema.requires_confirmation && !req.confirmed) = false →
      tool.handler req.arguments = HandlerOutcome.ret (Json.obj members) →
      dictContains members "error" = false →
      sideEffectsRaise members = false →
      (execute s req elapsedMs).2.1.execution_history =
        s.execution_history ++ [(execute s req elapsedMs).1] ∧
      (execute s req elapsedMs).1.status = ExecutionStatus.success) ∧
    (∀ (tool : RegisteredTool) (members : List (String × Json)),
      (validate_request s req).1 = true →
      s.tools.lookup req.tool = some tool →
      (tool.schema.requires_confirmation && !req.confirmed) = false →
      tool.handler req.arguments = HandlerOutcome.ret (Json.obj members) →
      dictContains members "error" = false →
      sideEffectsRaise members = true →
      (execute s req elapsedMs).2.1.execution_history = s.execution_history ∧
      (execute s req elapsedMs).1.status = ExecutionStatus.failed) ∧
    (∀ (tool : RegisteredTool) (v : Json),
      (validate_request s req).1 = true →
      s.tools.lookup req.tool = some tool →
      (tool.schema.requires_confirmation && !req.confirmed) = false →
      tool.handler req.arguments = HandlerOutcome.ret v →
      Json.isObj v = false →
      (execute s req elapsedMs).2.1.execution_history =
        s.execution_history ++ [(execute s req elapsedMs).1] ∧
      (execute s req elapsedMs).1.status = ExecutionStatus.success) ∧
    (∀ (s' : ToolServer) (limit : Nat), 0 < limit →
      (get_execution_history s' limit).length ≤ limit ∧
      get_execution_history s' limit <:+ s'.execution_history) := by
  refine ⟨?_, ?_, ?_, ?_, ?_, ?_, ?_, ?_, ?_⟩
  · unfold execute
    repeat' split
    all_goals first | exact Or.inl rfl | exact Or.inr rfl
  · unfold execute
    repeat' split
    all_goals intro h
    all_goals first | rfl | (rcases h with h | h <;> simp_all)
  · intro hv
    rcases hval : validate_request s req with ⟨b, err⟩
    rw [hval] at hv
    simp at hv
    subst hv
    unfold execute
    rw [hval]
    simp
  · intro tool msg hv hl hg hh
    rcases hval : validate_request s req with ⟨b, err⟩
    rw [hval] at hv
    simp at hv
    subst hv
    unfold execute
    rw [hval]
    simp [hl, hg, hh]
  · intro tool members hv hl hg hh herr
    rcases hval : validate_request s req with ⟨b, err⟩
    rw [hval] at hv
    simp at hv
    subst hv
    unfold execute
    rw [hval]
    simp [hl, hg, hh, herr]
  · intro tool members hv hl hg hh herr hsr
    rcases hval : validate_request s req with ⟨b, err⟩
    rw [hval] at hv
    simp at hv
    subst hv
    unfold execute
    rw [hval]
    unfold sideEffectsRaise at hsr
    rcases hscrut : (members.lookup "side_effects").map convertSideEffects with _ | oc
    · simp [hl, hg, hh, herr, hscrut]
    · rcases oc with _ | ses
      · rw [hscrut] at hsr
        simp at hsr
      · simp [hl, hg, hh, herr, hscrut]
  · intro tool members hv hl hg hh herr hsr
    rcases hval : validate_request s req with ⟨b, err⟩
    rw [hval] at hv
    simp at hv
    subst hv
    unfold execute
    rw [hval]
    unfold sideEffectsRaise at hsr
    rcases hscrut : (members.lookup "side_effects").map convertSideEffects with _ | oc
    · rw [hscrut] at hsr
      simp at hsr
    · rcases oc with _ | ses
      · simp [hl, hg, hh, herr, hscrut]
      · rw [hscrut] at hsr
        simp at hsr
  · intro tool v hv hl hg hh hobj
    rcases hval : validate_request s req with ⟨b, err⟩
    rw [hval] at hv
    simp at hv
    subst hv
    unfold execute
    rw [hval]
    cases v with
    | obj members => simp [Json.isObj] at hobj
    | null => simp [hl, hg, hh]
    | bool b2 => simp [hl, hg, hh]
    | num n2 => simp [hl, hg, hh]
    | str str2 => simp [hl, hg, hh]
    | arr items2 => simp [hl, hg, hh]
  · intro s' limit hl
    unfold get_execution_history
    rw [if_neg (Nat.pos_iff_ne_zero.mp hl)]
    constructor
    · rw [List.length_drop]
      omega
    · exact List.drop_suffix _ _

/-- C5 amended witness: concrete runs exercise every branch — the
held-at-the-gate request and the unknown-tool, raising, and
malformed-side-effects requests leave their histories unchanged; the
error-payload, result-dict and plain-payload requests append their
results; and reading a three-entry history with limit 2 yields at most
2 entries forming a suffix. -/
theorem C5_history_append_only_and_bounded_witness :
    (execute fixtureServer deleteRequest 0).2.1.execution_history =
      fixtureServer.execution_history ∧
    ((execute fixtureServer unknownRequest 0).2.1.execution_history =
      fixtureServer.execution_history ∧
     (execute fixtureServer unknownRequest 0).1.status = ExecutionStatus.failed) ∧
    ((execute raiseServer raiserRequest 0).2.1.execution_history =
      raiseServer.execution_history ∧
     (execute raiseServer raiserRequest 0).1.status = ExecutionStatus.failed) ∧
    ((execute raiseServer errRequest 0).2.1.execution_history =
      raiseServer.execution_history ++ [(execute raiseServer errRequest 0).1] ∧
     (execute raiseServer errRequest 0).1.status = ExecutionStatus.failed ∧
     (execute raiseServer errRequest 0).1.error = some (Json.str "nope")) ∧
    ((execute raiseServer goodDictRequest 0).2.1.execution_history =
      raiseServer.execution_history ++ [(execute raiseServer goodDictRequest 0).1] ∧
     (execute raiseServer goodDictRequest 0).1.status = ExecutionStatus.success) ∧
    ((execute raiseServer badseRequest 0).2.1.execution_history =
      raiseServer.execution_history ∧
     (execute raiseServer badseRequest 0).1.status = ExecutionStatus.failed) ∧
    ((execute fixtureServer echoRequest 0).2.1.execution_history =
      fixtureServer.execution_history ++ [(execute fixtureServer echoRequest 0).1] ∧
     (execute fixtureServer echoRequest 0).1.status = ExecutionStatus.success) ∧
    (get_execution_history histServer 2).length ≤ 2 ∧
    get_execution_history histServer 2 <:+ histServer.execution_history := by
  refine ⟨?_, ?_, ?_, ?_, ?_, ?_, ?_, ?_, ?_⟩
  · exact (C5_history_append_only_and_bounded fixtureServer deleteRequest 0).2.1 (Or.inl rfl)
  · exact (C5_history_append_only_and_bounded fixtureServer unknownRequest 0).2.2.1 rfl
  · exact (C5_history_append_only_and_bounded raiseServer raiserRequest 0).2.2.2.1
      { schema := raiserSchema, handler := raiseHandler } "boom" rfl rfl rfl rfl
  · exact (C5_history_append_only_and_bounded raiseServer errRequest 0).2.2.2.2.1
      { schema := errSchema, handler := errorPayloadHandler }
      [("error", Json.str "nope")] rfl rfl rfl rfl rfl
  · exact (C5_history_append_only_and_bounded raiseServer goodDictRequest 0).2.2.2.2.2.1
      { schema := goodDictSchema, handler := goodDictHandler }
      [("result", Json.str "done")] rfl rfl rfl rfl rfl rfl
  · exact (C5_history_append_only_and_bounded raiseServer badseRequest 0).2.2.2.2.2.2.1
      { schema := badseSchema, handler := badSideEffectsHandler }
      [("side_effects", Json.num 3)] rfl rfl rfl rfl rfl rfl
  · exact (C5_history_append_only_and_bounded fixtureServer echoRequest 0).2.2.2.2.2.2.2.1
      { schema := echoSchema, handler := echoHandler } (Json.str "ok") rfl rfl rfl rfl rfl
  · exact ((C5_history_append_only_and_bounded fixtureServer deleteRequest 0).2.2.2.2.2.2.2.2
      histServer 2 (by decide)).1
  · exact ((C5_history_append_only_and_bounded fixtureServer deleteRequest 0).2.2.2.2.2.2.2.2
      histServer 2 (by decide)).2

/-- The candidate loop is the first hit over the candidate list. -/
theorem tryCandidates_eq_findSome (l : List (List Char)) :
    tryCandidates l = l.findSome? tryCandidate := by
  induction l with
  | nil => rfl
  | cons c rest ih =>
    unfold tryCandidates
    rw [List.findSome?_cons]
    cases h : tryCandidate c <;> simp [h, ih]

/-- The match loop is the first hit over a pattern's matches. -/
theorem tryMatches_eq_findSome (l : List (List Char)) :
    tryMatches l =
      l.findSome? (fun m => (candidatesOfMatch m).findSome? tryCandidate) := by
  induction l with
  | nil => rfl
  | cons m rest ih =>
    unfold tryMatches
    rw [List.findSome?_cons, ← tryCandidates_eq_findSome]
    cases h : tryCandidates (candidatesOfMatch m) <;> simp [h, ih]

/-- The pattern loop is the first hit over the strategy list. -/
theorem tryStrategies_eq_findSome (content : List Char) (ps : List ExtractStrategy) :
    tryStrategies content ps =
      ps.findSome? (fun p =>
        (strategyMatches p content).findSome?
          (fun m => (candidatesOfMatch m).findSome? tryCandidate)) := by
  induction ps with
  | nil => rfl
  | cons p rest ih =>
    unfold tryStrategies
    rw [List.findSome?_cons, ← tryMatches_eq_findSome]
    cases h : tryMatches (strategyMatches p content) <;> simp [h, ih]

/-- C7.  The extractor equals the spec's formulation: strategies tried in
priority order, the first one yielding a syntactically valid object with
the action-name field wins, candidates inside a span are split by
delimiter-nesting depth and parsed left-to-right, and the structured
strategies fall back to the last-resort scan.  Concretely: a fenced
block with two concatenated tool objects yields the first; when only the
second object carries the action-name field, that one is returned (with
its arguments); and the model-specific delimiter strategy takes priority
over a fenced block appearing in the same reply. -/
theorem C7_strategy_priority_and_depth_splitting :
    (∀ content : String, parse_tool_call content = specExtract content) ∧
    parse_tool_call twoToolObjsInput = some (Json.str "first", Json.obj []) ∧
    parse_tool_call mixedObjsInput =
      some (Json.str "app_open", Json.obj [("identifier", Json.str "notepad")]) ∧
    parse_tool_call priorityInput = some (Json.str "alpha", Json.obj []) := by
  refine ⟨?_, rfl, rfl, rfl⟩
  intro content
  unfold parse_tool_call specExtract
  rw [tryStrategies_eq_findSome]

/-- C10.  An extracted object that carries the action-name field but no
arguments member still succeeds, with an empty argument mapping: the
structured path reads `data.get("arguments", {})`, and the last-resort
path leaves the arguments empty when no adjacent arguments object is
found.  Concretely, a fenced tool object with no arguments extracts with
an empty mapping. -/
theorem C10_missing_arguments_default_empty :
    (∀ (json_str : List Char) (data : List (String × Json)),
      startsWithBrace json_str = true →
      jsonLoads json_str = some (Json.obj data) →
      dictContains data "tool" = true →
      data.lookup "arguments" = none →
      tryCandidate json_str = some ((data.lookup "tool").getD .null, Json.obj [])) ∧
    (∀ (content name : List Char),
      scanToolKV false content = some name →
      scanArgsSpan content = none →
      fallbackExtract content = some (Json.str (String.mk name), Json.obj [])) ∧
    parse_tool_call noArgsInput = some (Json.str "screenshot", Json.obj []) := by
  refine ⟨?_, ?_, rfl⟩
  · intro js data h1 h2 h3 h4
    unfold tryCandidate
    rw [h1, h2]
    simp [h3, h4]
  · intro content name h1 h2
    unfold fallbackExtract
    rw [h1, h2]

/-- C10 witness: a bare object with only the action-name field extracts
with empty arguments through the structured path, and a loose
`"tool": "gamma"` with no arguments object extracts with empty arguments
through the last-resort path. -/
theorem C10_missing_arguments_default_empty_witness :
    tryCandidate "\x7b\"tool\": \"x\"\x7d".data = some (Json.str "x", Json.obj []) ∧
    fallbackExtract "hello \"tool\": \"gamma\" bye".data =
      some (Json.str "gamma", Json.obj []) :=
  ⟨C10_missing_arguments_default_empty.1 _ [("tool", Json.str "x")] rfl rfl rfl rfl,
   C10_missing_arguments_default_empty.2.1 _ "gamma".data rfl rfl⟩

/-- Each loop iteration adds at most one trace event, so the loop adds
at most `fuel` events. -/
theorem agentLoop_trace_length (oracle : Nat → Except String String)
    (handler? : Option (ToolRequest → Bool)) (elapsedMs : Int) :
    ∀ (fuel : Nat) (s : ToolServer) (msgs : List PyMessage) (n : Nat)
      (trace : List TurnEvent),
      (agentLoop oracle handler? elapsedMs fuel s msgs n trace).trace.length ≤
        trace.length + fuel := by
  intro fuel
  induction fuel with
  | zero =>
    intro s msgs n trace
    simp [agentLoop]
  | succ f ih =>
    intro s msgs n trace
    unfold agentLoop
    split
    · simp
    · split
      · refine le_trans (ih _ _ _ _) ?_
        simp
        omega
      · simp

/-- C8.  For every oracle of model replies — including one that proposes
an action every time — `process` performs at most `max_iterations`
model-call/action iterations (one trace event each) and terminates with
a string (`process` is a total function into `ProcessOut`). -/
theorem C8_iteration_budget (oracle : Nat → Except String String)
    (handler? : Option (ToolRequest → Bool)) (elapsedMs : Int)
    (max_iterations : Nat) (s : ToolServer) (conversation : List PyMessage)
    (user_input : String) :
    (process oracle handler? elapsedMs max_iterations s conversation
        user_input).trace.length ≤ max_iterations := by
  unfold process
  simpa using agentLoop_trace_length oracle handler? elapsedMs max_iterations s _ 1 []

/-- One action-proposing iteration respects the confirmation policy. -/
theorem runToolTurn_policy (s : ToolServer)
    (handler? : Option (ToolRequest → Bool)) (req : ToolRequest)
    (elapsedMs : Int) :
    confirmationPolicy handler?
      (.toolTurn req (runToolTurn s handler? req elapsedMs).2.1
        (runToolTurn s handler? req elapsedMs).2.2) := by
  by_cases hst : (execute s req elapsedMs).1.status = ExecutionStatus.confirmation_required
  · cases handler? with
    | none =>
      simp [runToolTurn, confirmationPolicy, hst]
    | some h =>
      by_cases hh : h req
      · simp [runToolTurn, confirmationPolicy, hst, hh]
      · simp [runToolTurn, confirmationPolicy, hst, hh]
  · simp [runToolTurn, confirmationPolicy, hst]

/-- Every trace event of the loop satisfies the confirmation policy. -/
theorem agentLoop_policy (oracle : Nat → Except String String)
    (handler? : Option (ToolRequest → Bool)) (elapsedMs : Int) :
    ∀ (fuel : Nat) (s : ToolServer) (msgs : List PyMessage) (n : Nat)
      (trace : List TurnEvent),
      (∀ ev ∈ trace, confirmationPolicy handler? ev) →
      ∀ ev ∈ (agentLoop oracle handler? elapsedMs fuel s msgs n trace).trace,
        confirmationPolicy handler? ev := by
  intro fuel
  induction fuel with
  | zero =>
    intro s msgs n trace hacc
    simpa [agentLoop] using hacc
  | succ f ih =>
    intro s msgs n trace hacc
    unfold agentLoop
    split
    · intro ev hev
      rcases List.mem_append.mp hev with hev | hev
      · exact hacc ev hev
      · rw [List.mem_singleton.mp hev]
        trivial
    · split
      · apply ih
        intro ev hev
        rcases List.mem_append.mp hev with hev | hev
        · exact hacc ev hev
        · rw [List.mem_singleton.mp hev]
          exact runToolTurn_policy _ _ _ _
      · intro ev hev
        rcases List.mem_append.mp hev with hev | hev
        · exact hacc ev hev
        · rw [List.mem_singleton.mp hev]
          trivial

/-- C4 counterexample.  With no approval collaborator configured, a
confirmation_required result from `execute` is left standing: the run's
first iteration executes once (never with `confirmed=True`), feeds the
confirmation_required result itself back to the model, produces no
cancelled result, and the loop simply continues to a plain answer — so
confirmation_required neither led to a resubmission with confirmed=true
nor to a cancelled terminal result, and the configured-absent default
was not a denial that cancels the request. -/
theorem C4_no_handler_leaves_confirmation_unresolved :
    c4NoHandlerRun.trace.map TurnEvent.finalStatus =
      [some ExecutionStatus.confirmation_required, none] ∧
    c4NoHandlerRun.trace.map TurnEvent.callCount = [1, 0] ∧
    c4NoHandlerRun.trace.map TurnEvent.hasResubmission = [false, false] ∧
    c4NoHandlerRun.final_response = "All done here." :=
  ⟨rfl, rfl, rfl, rfl⟩

/-- C4 amended.  In every run of the turn loop, an iteration whose first
`execute` call returns confirmation_required resolves it within the
iteration only when a confirmation handler is configured: approval
resubmits the same request with `confirmed=True` and executes it again,
denial replaces the result with a cancelled one; with no handler
configured, the confirmation_required result itself stands (no
resubmission, no cancellation) and is fed back to the model — the
handler is not invoked, but no cancelled result is produced. -/
theorem C4_confirmation_policy (oracle : Nat → Except String String)
    (handler? : Option (ToolRequest → Bool)) (elapsedMs : Int)
    (max_iterations : Nat) (s : ToolServer) (conversation : List PyMessage)
    (user_input : String) (ev : TurnEvent)
    (hev : ev ∈ (process oracle handler? elapsedMs max_iterations s
        conversation user_input).trace) :
    confirmationPolicy handler? ev := by
  unfold process at hev
  exact agentLoop_policy oracle handler? elapsedMs max_iterations s _ 1 []
    (by simp) ev hev

/-- C4 amended witness: in the concrete denial run, the first trace
event (request held at the gate, then cancelled) satisfies the policy. -/
theorem C4_confirmation_policy_witness :
    confirmationPolicy (some (fun _ => false)) c4DenyEvent :=
  C4_confirmation_policy confirmOracle (some (fun _ => false)) 0 10
    fixtureServer [] "please delete" c4DenyEvent (List.Mem.head _)
